import Mathlib

/-!
Shallow embedding of `run.py` from the msaf repository: algorithm-registry
resolution (`get_boundaries_module`, `get_labels_module`), the segmentation
executor (`run_algorithms`), the per-item task (`process_track`) and the
batch scheduler (`process`).

Modelling decisions:
* Algorithm identifiers are `Option String`: Python's `None` is `none`.
* The module namespace `msaf.algorithms` that `run.py` resolves names
  against via dynamic lookup is a registry function `String → Option Module`;
  a failed lookup is the `unknownAlgorithm` error (Python `AttributeError`),
  and concatenating `None` into the lookup expression is the
  `noneConcatTypeError` error (Python `TypeError`).
* A `Module`'s `Segmenter(...)` constructor-plus-`process()` is one function
  from the audio file, the construction keywords (`SegInput`), the config and
  the ambient numpy RNG state to a `(times, labels)` pair and the successor
  RNG state.  The RNG state threading models the global `np.random` state the
  scheduler seeds with `np.random.seed(123)`.
* Segment times are `Int` (their numeric content is irrelevant to the
  orchestration layer) and labels are `String`.
* Each algorithm instantiation is recorded in a ghost trace of
  `Instantiation` values so that instantiation-counting properties are
  statable.
* External collaborators (`io.read_references`, `jams2.load`,
  `io.get_dataset_files`, `io.get_configuration`, `msaf.Dataset.*`) live in
  an `Env` record.
-/

namespace Msaf

/-- One beat track of a loaded JAMS annotation; only its `data` list matters
to `run.py`'s skip rule. -/
structure BeatTrack where
  data : List Int
deriving DecidableEq

/-- A loaded JAMS annotation document, reduced to the `beats` field that
`process_track` inspects. -/
structure Jam where
  beats : List BeatTrack
deriving DecidableEq

/-- The configuration mapping handed to every task.  `annot_beats` is the one
key `run.py` reads directly; the remaining options are opaque. -/
structure Config where
  annot_beats : Bool
  options : List (String × Int)
deriving DecidableEq

/-- The keyword shape with which `run.py` constructs a `Segmenter`:
`Segmenter(audio, **config)`, `Segmenter(audio, in_labels=[], **config)` or
`Segmenter(audio, in_bound_times=..., **config)`. -/
inductive SegInput where
  | plain : SegInput
  | inLabels (in_labels : List String) : SegInput
  | withBoundTimes (in_bound_times : List Int) : SegInput
deriving DecidableEq

/-- An algorithm module from the `msaf.algorithms` namespace: its `__name__`,
its two capability flags, and the behaviour of `Segmenter(...).process()`
(as a function of the audio file, the construction keywords, the config and
the ambient RNG state). -/
structure Module where
  name : String
  is_boundary_type : Bool
  is_label_type : Bool
  process : String → SegInput → Config → Nat → (List Int × List String) × Nat

/-- A ghost record of one `Segmenter` instantiation performed by
`run_algorithms`: which module was instantiated and with which keywords. -/
structure Instantiation where
  module_name : String
  input : SegInput
deriving DecidableEq

/-- The errors `run.py` can raise while resolving identifiers:
`RuntimeError` for a capability mismatch, `AttributeError` for an unknown
name, `TypeError` for concatenating `None` into the lookup expression. -/
inductive RunError where
  | unknownAlgorithm (id : String)
  | cannotIdentifyBoundaries (id : String)
  | cannotLabel (id : String)
  | noneConcatTypeError
deriving DecidableEq

/-- The external collaborators of `run.py`. -/
structure Env where
  registry : String → Option Module
  read_references : String → List Int × List String
  load_jam : String → Jam
  get_dataset_files : String → String → List String × List String × List String
  get_configuration : String → Bool → Bool → Option String → Option String → Config
  estimations_dir : String
  estimations_ext : String

/-- Dynamic name lookup against the `msaf.algorithms` namespace
(`eval(algorithms.__name__ + "." + id)` in the source). -/
def lookup_algorithm (registry : String → Option Module) (id : String) :
    Except RunError Module :=
  match registry id with
  | none => .error (.unknownAlgorithm id)
  | some m => .ok m

/-- Embedding of `get_boundaries_module` (run.py lines 28-35): `"gt"` is the
sentinel returning an absent handle; any other identifier is looked up and
must declare `is_boundary_type`.  Passing `None` reaches the lookup
expression and fails there. -/
def get_boundaries_module (registry : String → Option Module)
    (boundaries_id : Option String) : Except RunError (Option Module) :=
  if boundaries_id = some "gt" then .ok none
  else
    match boundaries_id with
    | none => .error .noneConcatTypeError
    | some id =>
      match lookup_algorithm registry id with
      | .error e => .error e
      | .ok m =>
        if m.is_boundary_type then .ok (some m)
        else .error (.cannotIdentifyBoundaries id)

/-- Embedding of `get_labels_module` (run.py lines 38-45): `None` is the
sentinel returning an absent handle; any other identifier (including the
string `"gt"`) is looked up and must declare `is_label_type`. -/
def get_labels_module (registry : String → Option Module)
    (labels_id : Option String) : Except RunError (Option Module) :=
  match labels_id with
  | none => .ok none
  | some id =>
    match lookup_algorithm registry id with
    | .error e => .error e
    | .ok m =>
      if m.is_label_type then .ok (some m)
      else .error (.cannotLabel id)

/-- The boundary stage of the independent (non-fusion) branch of
`run_algorithms`: instantiate the boundary module with `in_labels=[]`, or
fall back to `io.read_references` when the handle is absent. -/
def independent_bound_stage (env : Env) (audio_file : String)
    (bounds_module : Option Module) (config : Config) (rng : Nat) :
    (List Int × List String) × List Instantiation × Nat :=
  match bounds_module with
  | some bm =>
    let p := bm.process audio_file (SegInput.inLabels []) config rng
    (p.1, [⟨bm.name, SegInput.inLabels []⟩], p.2)
  | none => (env.read_references audio_file, [], rng)

/-- The independent (non-fusion) branch of `run_algorithms`: boundary stage,
then, when a label module is present, `Segmenter(audio,
in_bound_times=est_times, **config)` whose `process()` result *reassigns
both* `est_times` and `est_labels`. -/
def run_independent (env : Env) (audio_file : String)
    (bounds_module labels_module : Option Module) (config : Config)
    (rng : Nat) : (List Int × List String) × List Instantiation × Nat :=
  let s := independent_bound_stage env audio_file bounds_module config rng
  match labels_module with
  | some lm =>
    let p := lm.process audio_file (SegInput.withBoundTimes s.1.1) config s.2.2
    (p.1, s.2.1 ++ [⟨lm.name, SegInput.withBoundTimes s.1.1⟩], p.2)
  | none => s

/-- The dispatch decision of `run_algorithms` over the two resolved handles:
fusion when both are present with the same `__name__`, otherwise the
independent branch. -/
def dispatch (env : Env) (audio_file : String) (config : Config) (rng : Nat) :
    Option Module → Option Module →
    (List Int × List String) × List Instantiation × Nat
  | some bm, some lm =>
    if bm.name = lm.name then
      let p := bm.process audio_file SegInput.plain config rng
      (p.1, [⟨bm.name, SegInput.plain⟩], p.2)
    else run_independent env audio_file (some bm) (some lm) config rng
  | b, l => run_independent env audio_file b l config rng

/-- Embedding of `run_algorithms` (run.py lines 48-73): resolve the two
handles, then dispatch.  Besides the `(est_times, est_labels)` pair it
returns the ghost instantiation trace and the successor RNG state. -/
def run_algorithms (env : Env) (audio_file : String)
    (boundaries_id labels_id : Option String) (config : Config) (rng : Nat) :
    Except RunError ((List Int × List String) × List Instantiation × Nat) :=
  match get_boundaries_module env.registry boundaries_id with
  | .error e => .error e
  | .ok bounds_module =>
    match get_labels_module env.registry labels_id with
    | .error e => .error e
    | .ok labels_module =>
      .ok (dispatch env audio_file config rng bounds_module labels_module)

/-- Python's list slice `s[:-n]` on a string: all characters but the last
`n` (empty when the string has at most `n` characters). -/
def py_drop_last (s : String) (n : Nat) : String :=
  String.mk (s.data.take (s.data.length - n))

/-- Embedding of `os.path.basename`: the component after the last `/`,
computed by a left fold that restarts at every separator. -/
def basename (p : String) : String :=
  String.mk (p.data.foldl (fun acc c => if c = '/' then [] else acc ++ [c]) [])

/-- Embedding of `os.path.join` for the relative, non-empty components
`run.py` joins. -/
def path_join (a b : String) : String := a ++ "/" ++ b

/-- Modelled from the spec: `utils.times_to_intervals` is not under `src/`;
the spec's concrete scenario maps boundaries `[t0, t1, t2, ...]` to the
closed intervals `[(t0,t1), (t1,t2), ...]` of consecutive pairs. -/
def times_to_intervals (times : List Int) : List (Int × Int) :=
  times.zip times.tail

/-- The outcome of one per-item task: skipped by the annotated-beats rule,
or one artifact written through `io.save_estimations` (the written path,
intervals, labels, both identifiers and the config). -/
inductive TrackResult where
  | skipped : TrackResult
  | written (out_file : String) (est_inters : List (Int × Int))
      (est_labels : List String) (boundaries_id labels_id : Option String)
      (config : Config) : TrackResult
deriving DecidableEq

/-- The skip check of `process_track`: `jam.beats == []` or
`jam.beats[0].data == []`, with the index-0 access written as `List.get?`
so that its in-bounds behaviour is a provable statement. -/
def first_beat_data_empty (beats : List BeatTrack) : Bool :=
  match beats.get? 0 with
  | some bt => bt.data.isEmpty
  | none => false

/-- The combined annotated-beats skip condition on a loaded annotation. -/
def track_skip (jam : Jam) : Bool :=
  if jam.beats.isEmpty then true else first_beat_data_empty jam.beats

/-- The non-skipped remainder of `process_track` (run.py lines 87-100):
run the algorithms, recompute the output path from `in_path`, the
estimations directory and the audio base name stripped of its last four
characters, convert the times to intervals, and persist. -/
def process_track_body (env : Env) (in_path audio_file : String)
    (boundaries_id labels_id : Option String) (config : Config) (rng : Nat) :
    Except RunError (TrackResult × Nat) :=
  match run_algorithms env audio_file boundaries_id labels_id config rng with
  | .error e => .error e
  | .ok r =>
    let out_file := path_join (path_join in_path env.estimations_dir)
      (py_drop_last (basename audio_file) 4 ++ env.estimations_ext)
    .ok (.written out_file (times_to_intervals r.1.1) r.1.2 boundaries_id
          labels_id config, r.2.2)

/-- Embedding of `process_track` (run.py lines 76-100): when `annot_beats`
is requested and the loaded annotation has no beats, or an empty first beat
track, return immediately as skipped; otherwise run the body. -/
def process_track (env : Env) (in_path audio_file jam_file ds_name : String)
    (boundaries_id labels_id : Option String) (config : Config) (rng : Nat) :
    Except RunError (TrackResult × Nat) :=
  if config.annot_beats && track_skip (env.load_jam jam_file) then
    .ok (.skipped, rng)
  else
    process_track_body env in_path audio_file boundaries_id labels_id config
      rng

/-- The per-item dispatch loop of the batch scheduler: one `process_track`
per `(audio_file, jam_file)` pair, threading the global RNG state, with a
raised error propagating out of the whole batch (joblib's unguarded
failure propagation). -/
def process_items (env : Env) (in_path ds_name : String)
    (boundaries_id labels_id : Option String) (config : Config) :
    List (String × String) → Nat → Except RunError (List TrackResult)
  | [], _ => .ok []
  | (audio_file, jam_file) :: rest, rng =>
    match process_track env in_path audio_file jam_file ds_name boundaries_id
        labels_id config rng with
    | .error e => .error e
    | .ok r =>
      match process_items env in_path ds_name boundaries_id labels_id config
          rest r.2 with
      | .error e => .error e
      | .ok results => .ok (r.1 :: results)

/-- Embedding of `process` (run.py lines 103-121): seed the global RNG to
123, resolve the configuration when none was passed, enumerate the dataset
triples, and dispatch one task per `(audio_file, jam_file)` pair.  `rng0`
is the ambient `np.random` state at entry; `n_jobs` is the worker count,
which does not affect the deterministic outcome of the batch.  The
`est_files` component of the discovery triple is never consulted. -/
def process (env : Env) (in_path : String) (annot_beats : Bool)
    (feature ds_name : String) (framesync : Bool)
    (boundaries_id labels_id : Option String) (n_jobs : Nat)
    (config0 : Option Config) (rng0 : Nat) :
    Except RunError (List TrackResult) :=
  let rng := 123
  let config :=
    match config0 with
    | some c => c
    | none =>
      env.get_configuration feature annot_beats framesync boundaries_id
        labels_id
  let files := env.get_dataset_files in_path ds_name
  process_items env in_path ds_name boundaries_id labels_id config
    (files.2.2.zip files.1) rng

/-! Concrete fixtures used by witnesses and counterexamples. -/

/-- A boundary-only test algorithm; it always reports boundaries `[0, 10]`
and no labels. -/
def bd_module : Module :=
  { name := "bd", is_boundary_type := true, is_label_type := false,
    process := fun _ _ _ rng => (([0, 10], []), rng) }

/-- A label-only test algorithm whose `process` reports its own boundary
estimate `[0, 5, 10]` (different from any input boundaries) next to the
labels. -/
def lb_module : Module :=
  { name := "lb", is_boundary_type := false, is_label_type := true,
    process := fun _ _ _ rng => (([0, 5, 10], ["A", "B"]), rng) }

/-- A label-only test algorithm that echoes the `in_bound_times` it was
constructed with. -/
def echo_module : Module :=
  { name := "ec", is_boundary_type := false, is_label_type := true,
    process := fun _ input _ rng =>
      match input with
      | SegInput.withBoundTimes t => ((t, ["E"]), rng)
      | _ => (([], []), rng) }

/-- A test algorithm declaring both capabilities (the fusion case). -/
def both_module : Module :=
  { name := "bo", is_boundary_type := true, is_label_type := true,
    process := fun _ _ _ rng => (([0, 3, 10], ["X", "Y"]), rng) }

/-- A small registry holding the four test algorithms and nothing else (in
particular no algorithm named `"gt"` or `"foo"`). -/
def test_registry : String → Option Module := fun id =>
  if id = "bd" then some bd_module
  else if id = "lb" then some lb_module
  else if id = "ec" then some echo_module
  else if id = "bo" then some both_module
  else none

/-- A registry that does register an algorithm under the name `"gt"`. -/
def gt_registry : String → Option Module := fun id =>
  if id = "gt" then some lb_module else none

/-- A config with `annot_beats` off. -/
def cfgF : Config := ⟨false, []⟩

/-- A config with `annot_beats` on. -/
def cfgT : Config := ⟨true, []⟩

/-- A test environment: the reference reader reports boundaries `[0, 7]`
with the non-empty label list `["verse"]`, the loaded annotation has no
beats, and discovery yields one item. -/
def test_env : Env :=
  { registry := test_registry
    read_references := fun _ => ([0, 7], ["verse"])
    load_jam := fun _ => ⟨[]⟩
    get_dataset_files := fun _ _ => (["j1"], ["e1"], ["a1.mp3"])
    get_configuration := fun _ _ _ _ _ => cfgF
    estimations_dir := "estimations"
    estimations_ext := ".jams" }

/-! Helper lemmas about the executor. -/

/-- Unfolding `run_algorithms` when both resolutions succeed. -/
theorem run_algorithms_eq_ok {env : Env} {audio : String}
    {boundaries_id labels_id : Option String} {config : Config} {rng : Nat}
    {b l : Option Module}
    (h1 : get_boundaries_module env.registry boundaries_id = .ok b)
    (h2 : get_labels_module env.registry labels_id = .ok l) :
    run_algorithms env audio boundaries_id labels_id config rng =
      .ok (dispatch env audio config rng b l) := by
  unfold run_algorithms
  rw [h1, h2]

/-- Inversion of a successful `run_algorithms` call into the two resolution
results and the dispatch value. -/
theorem run_algorithms_ok_elim {env : Env} {audio : String}
    {boundaries_id labels_id : Option String} {config : Config} {rng : Nat}
    {out : (List Int × List String) × List Instantiation × Nat}
    (h : run_algorithms env audio boundaries_id labels_id config rng = .ok out) :
    ∃ b l, get_boundaries_module env.registry boundaries_id = .ok b ∧
      get_labels_module env.registry labels_id = .ok l ∧
      dispatch env audio config rng b l = out := by
  unfold run_algorithms at h
  cases h1 : get_boundaries_module env.registry boundaries_id with
  | error e => rw [h1] at h; exact absurd h (by simp)
  | ok b =>
    rw [h1] at h
    cases h2 : get_labels_module env.registry labels_id with
    | error e => rw [h2] at h; exact absurd h (by simp)
    | ok l =>
      rw [h2] at h
      exact ⟨b, l, rfl, rfl, by injection h⟩

/-! Claim theorems. -/

/-- Construction keywords of a boundary-stage instantiation: the fusion
construction `Segmenter(audio, **config)` or the boundary construction
`Segmenter(audio, in_labels=[], **config)`. -/
def bound_stage_input : SegInput → Bool
  | .withBoundTimes _ => false
  | _ => true

/-- Construction keywords of a label-producing instantiation: the fusion
construction or the label construction
`Segmenter(audio, in_bound_times=..., **config)`. -/
def label_stage_input : SegInput → Bool
  | .inLabels _ => false
  | _ => true

/-- C1: every successful executor run records at most two instantiations,
at most one of them boundary-stage and at most one of them
label-producing; and when both handles resolve to present modules of the
same name, the trace is exactly one fusion instantiation whose single
`process` call yields both the returned boundaries and labels. -/
theorem C1_instantiation_count :
    ∀ (env : Env) (audio : String) (boundaries_id labels_id : Option String)
      (config : Config) (rng : Nat)
      (out : (List Int × List String) × List Instantiation × Nat),
    run_algorithms env audio boundaries_id labels_id config rng = .ok out →
    out.2.1.length ≤ 2 ∧
    (out.2.1.countP fun i => bound_stage_input i.input) ≤ 1 ∧
    (out.2.1.countP fun i => label_stage_input i.input) ≤ 1 ∧
    (∀ bm lm,
      get_boundaries_module env.registry boundaries_id = .ok (some bm) →
      get_labels_module env.registry labels_id = .ok (some lm) →
      bm.name = lm.name →
      out.2.1 = [⟨bm.name, SegInput.plain⟩] ∧
      out.1 = (bm.process audio SegInput.plain config rng).1) := by
  intro env audio boundaries_id labels_id config rng out h
  obtain ⟨b, l, h1, h2, hd⟩ := run_algorithms_ok_elim h
  subst hd
  cases b with
  | none =>
    cases l with
    | none =>
      refine ⟨?_, ?_, ?_, ?_⟩ <;>
        simp [dispatch, run_independent, independent_bound_stage]
      intro bm lm h1' _ _
      rw [h1] at h1'
      exact absurd h1' (by simp)
    | some lm =>
      refine ⟨?_, ?_, ?_, ?_⟩ <;>
        simp [dispatch, run_independent, independent_bound_stage,
          bound_stage_input, label_stage_input]
      intro bm lm' h1' _ _
      rw [h1] at h1'
      exact absurd h1' (by simp)
  | some bm =>
    cases l with
    | none =>
      refine ⟨?_, ?_, ?_, ?_⟩ <;>
        simp [dispatch, run_independent, independent_bound_stage,
          bound_stage_input, label_stage_input]
      intro bm' lm _ h2' _
      rw [h2] at h2'
      exact absurd h2' (by simp)
    | some lm =>
      by_cases hn : bm.name = lm.name
      · refine ⟨?_, ?_, ?_, ?_⟩ <;>
          simp [dispatch, hn, bound_stage_input, label_stage_input]
        intro bm' lm' h1' h2' _
        rw [h1] at h1'
        rw [h2] at h2'
        have hb : bm' = bm := by
          injection h1' with h1''
          exact (Option.some.injEq _ _ ▸ h1'').symm
        have hl : lm' = lm := by
          injection h2' with h2''
          exact (Option.some.injEq _ _ ▸ h2'').symm
        subst hb
        subst hl
        simp [hn]
      · refine ⟨?_, ?_, ?_, ?_⟩ <;>
          simp [dispatch, hn, run_independent, independent_bound_stage,
            bound_stage_input, label_stage_input]
        intro bm' lm' h1' h2' hn'
        rw [h1] at h1'
        rw [h2] at h2'
        have hb : bm' = bm := by
          injection h1' with h1''
          exact (Option.some.injEq _ _ ▸ h1'').symm
        have hl : lm' = lm := by
          injection h2' with h2''
          exact (Option.some.injEq _ _ ▸ h2'').symm
        subst hb
        subst hl
        exact absurd hn' hn

/-- C1 witness: the fusion run of the both-capability test algorithm. -/
theorem C1_instantiation_count_witness :
    (run_algorithms test_env "a.mp3" (some "bo") (some "bo") cfgF 0 =
      .ok (([0, 3, 10], ["X", "Y"]), [⟨"bo", SegInput.plain⟩], 0)) ∧
    (((([0, 3, 10], ["X", "Y"]), [(⟨"bo", SegInput.plain⟩ : Instantiation)],
        0) : (List Int × List String) × List Instantiation × Nat).2.1.length
      ≤ 2 ∧
     ((((([0, 3, 10], ["X", "Y"]),
        [(⟨"bo", SegInput.plain⟩ : Instantiation)],
        0) : (List Int × List String) × List Instantiation ×
          Nat).2.1.countP fun i => bound_stage_input i.input)) ≤ 1 ∧
     ((((([0, 3, 10], ["X", "Y"]),
        [(⟨"bo", SegInput.plain⟩ : Instantiation)],
        0) : (List Int × List String) × List Instantiation ×
          Nat).2.1.countP fun i => label_stage_input i.input)) ≤ 1 ∧
     (∀ bm lm,
       get_boundaries_module test_env.registry (some "bo") = .ok (some bm) →
       get_labels_module test_env.registry (some "bo") = .ok (some lm) →
       bm.name = lm.name →
       ((([0, 3, 10], ["X", "Y"]),
         [(⟨"bo", SegInput.plain⟩ : Instantiation)],
         0) : (List Int × List String) × List Instantiation × Nat).2.1 =
           [⟨bm.name, SegInput.plain⟩] ∧
       ((([0, 3, 10], ["X", "Y"]),
         [(⟨"bo", SegInput.plain⟩ : Instantiation)],
         0) : (List Int × List String) × List Instantiation × Nat).1 =
           (bm.process "a.mp3" SegInput.plain cfgF 0).1)) :=
  ⟨rfl, C1_instantiation_count test_env "a.mp3" (some "bo") (some "bo") cfgF 0
    _ rfl⟩

/-- C2 counterexample: in the independent case with both handles present
(`"bd"` then `"lb"`), the boundary stage produces `[0, 10]` but the
executor returns `[0, 5, 10]` — the label step's `process()` reassigns the
boundary sequence, so the boundaries are not carried through unchanged. -/
theorem C2_label_stage_overwrites_bounds_cex :
    run_algorithms test_env "a.mp3" (some "bd") (some "lb") cfgF 0 =
      .ok (([0, 5, 10], ["A", "B"]),
        [⟨"bd", SegInput.inLabels []⟩,
         ⟨"lb", SegInput.withBoundTimes [0, 10]⟩], 0) ∧
    (independent_bound_stage test_env "a.mp3" (some bd_module) cfgF 0).1.1 =
      [0, 10] ∧
    ([0, 5, 10] : List Int) ≠ [0, 10] :=
  ⟨rfl, rfl, by decide⟩

/-- C2 amended: in the independent case the label step reassigns both the
times and the labels from its own `process()` result; the final boundaries
equal the boundary-stage boundaries exactly under the extra hypothesis that
the label algorithm echoes the `in_bound_times` it was constructed with. -/
theorem C2_bounds_carried_when_label_echoes :
    ∀ (env : Env) (audio : String) (boundaries_id labels_id : Option String)
      (config : Config) (rng : Nat) (b : Option Module) (lm : Module)
      (out : (List Int × List String) × List Instantiation × Nat),
    get_boundaries_module env.registry boundaries_id = .ok b →
    get_labels_module env.registry labels_id = .ok (some lm) →
    (∀ bm, b = some bm → bm.name ≠ lm.name) →
    (∀ t r, ((lm.process audio (SegInput.withBoundTimes t) config r).1).1 = t) →
    run_algorithms env audio boundaries_id labels_id config rng = .ok out →
    out.1.1 = (independent_bound_stage env audio b config rng).1.1 := by
  intro env audio boundaries_id labels_id config rng b lm out h1 h2 hname
    hecho h
  rw [run_algorithms_eq_ok h1 h2] at h
  injection h with h
  subst h
  cases b with
  | none =>
    simp [dispatch, run_independent]
    exact hecho _ _
  | some bm =>
    have hn : ¬ bm.name = lm.name := hname bm rfl
    simp [dispatch, hn, run_independent]
    exact hecho _ _

/-- C2 witness: the boundary algorithm `"bd"` followed by the echoing label
algorithm `"ec"`; the final boundaries equal the boundary stage's
`[0, 10]`. -/
theorem C2_bounds_carried_when_label_echoes_witness :
    (∀ t r,
      ((echo_module.process "a.mp3" (SegInput.withBoundTimes t) cfgF r).1).1
        = t) ∧
    (run_algorithms test_env "a.mp3" (some "bd") (some "ec") cfgF 0 =
      .ok (([0, 10], ["E"]),
        [⟨"bd", SegInput.inLabels []⟩,
         ⟨"ec", SegInput.withBoundTimes [0, 10]⟩], 0)) ∧
    ((([0, 10], ["E"]),
        [(⟨"bd", SegInput.inLabels []⟩ : Instantiation),
         ⟨"ec", SegInput.withBoundTimes [0, 10]⟩],
        0) : (List Int × List String) × List Instantiation × Nat).1.1 =
      (independent_bound_stage test_env "a.mp3" (some bd_module) cfgF 0).1.1 :=
  ⟨fun _ _ => rfl, rfl,
    C2_bounds_carried_when_label_echoes test_env "a.mp3" (some "bd")
      (some "ec") cfgF 0 (some bd_module) echo_module _ rfl rfl
      (by intro bm hbm; injection hbm with hbm; rw [← hbm]; decide)
      (fun _ _ => rfl) rfl⟩

/-- C3 counterexample: a batch run with the unknown boundary identifier
`"foo"` completes without any error when its only item is skipped by the
annotated-beats rule — so no `UnknownAlgorithm` error is raised before
per-item work is dispatched; indeed resolution only happens inside a
per-item task, where the same identifier does fail. -/
theorem C3_no_validation_before_dispatch_cex :
    process test_env "in" true "mfcc" "*" false (some "foo") none 4
        (some cfgT) 0 = .ok [.skipped] ∧
    get_boundaries_module test_env.registry (some "foo") =
      .error (.unknownAlgorithm "foo") ∧
    process_track test_env "in" "a1.mp3" "j1" "*" (some "foo") none cfgF 0 =
      .error (.unknownAlgorithm "foo") :=
  ⟨rfl, rfl, rfl⟩

/-- C3 amended: identifier resolution is performed inside each per-item
task, not once per batch before dispatch: with an unknown non-sentinel
boundary identifier, a skipped item still completes as skipped with no
error, and the `UnknownAlgorithm` error surfaces exactly when a non-skipped
item runs. -/
theorem C3_resolution_happens_per_item :
    ∀ (env : Env) (in_path audio_file jam_file ds_name : String)
      (labels_id : Option String) (config : Config) (rng : Nat) (id : String),
    id ≠ "gt" →
    env.registry id = none →
    ((config.annot_beats && track_skip (env.load_jam jam_file)) = true →
      process_track env in_path audio_file jam_file ds_name (some id)
        labels_id config rng = .ok (.skipped, rng)) ∧
    ((config.annot_beats && track_skip (env.load_jam jam_file)) = false →
      process_track env in_path audio_file jam_file ds_name (some id)
        labels_id config rng = .error (.unknownAlgorithm id)) := by
  intro env in_path audio_file jam_file ds_name labels_id config rng id hid
    hreg
  have hg : get_boundaries_module env.registry (some id) =
      .error (.unknownAlgorithm id) := by
    simp [get_boundaries_module, lookup_algorithm, hid, hreg]
  constructor
  · intro hskip
    simp [process_track, hskip]
  · intro hskip
    have hr : run_algorithms env audio_file (some id) labels_id config rng =
        .error (.unknownAlgorithm id) := by
      unfold run_algorithms
      rw [hg]
    simp [process_track, hskip, process_track_body, hr]

/-- C3 witness: the unknown identifier `"foo"` against the test
environment, once on a skipped item and once on a non-skipped one. -/
theorem C3_resolution_happens_per_item_witness :
    ("foo" ≠ "gt" ∧ test_env.registry "foo" = none ∧
      (((cfgT.annot_beats && track_skip (test_env.load_jam "j1")) = true →
        process_track test_env "in" "a1.mp3" "j1" "*" (some "foo") none cfgT 0
          = .ok (.skipped, 0)) ∧
       ((cfgT.annot_beats && track_skip (test_env.load_jam "j1")) = false →
        process_track test_env "in" "a1.mp3" "j1" "*" (some "foo") none cfgT 0
          = .error (.unknownAlgorithm "foo")))) ∧
    (((cfgF.annot_beats && track_skip (test_env.load_jam "j1")) = true →
        process_track test_env "in" "a1.mp3" "j1" "*" (some "foo") none cfgF 0
          = .ok (.skipped, 0)) ∧
     ((cfgF.annot_beats && track_skip (test_env.load_jam "j1")) = false →
        process_track test_env "in" "a1.mp3" "j1" "*" (some "foo") none cfgF 0
          = .error (.unknownAlgorithm "foo"))) :=
  ⟨⟨by decide, rfl,
     C3_resolution_happens_per_item test_env "in" "a1.mp3" "j1" "*" none cfgT
       0 "foo" (by decide) rfl⟩,
   C3_resolution_happens_per_item test_env "in" "a1.mp3" "j1" "*" none cfgF
     0 "foo" (by decide) rfl⟩

/-- C4: with `annot_beats` requested, an item whose loaded annotation has
an empty beat list, or whose first beat track has empty data, makes the
per-item task return immediately as skipped — no algorithm resolution or
execution, no artifact, no error; in every other situation the task runs
its normal body. -/
theorem C4_annot_beats_skip_rule :
    ∀ (env : Env) (in_path audio_file jam_file ds_name : String)
      (boundaries_id labels_id : Option String) (config : Config) (rng : Nat),
    (config.annot_beats = true →
      ((env.load_jam jam_file).beats = [] ∨
        ∃ bt rest, (env.load_jam jam_file).beats = bt :: rest ∧
          bt.data = []) →
      process_track env in_path audio_file jam_file ds_name boundaries_id
        labels_id config rng = .ok (.skipped, rng)) ∧
    ((config.annot_beats && track_skip (env.load_jam jam_file)) = false →
      process_track env in_path audio_file jam_file ds_name boundaries_id
        labels_id config rng =
        process_track_body env in_path audio_file boundaries_id labels_id
          config rng) := by
  intro env in_path audio_file jam_file ds_name boundaries_id labels_id
    config rng
  constructor
  · intro hannot hcond
    have hskip : track_skip (env.load_jam jam_file) = true := by
      rcases hcond with h | ⟨bt, rest, hbeats, hdata⟩
      · simp [track_skip, h]
      · simp [track_skip, first_beat_data_empty, hbeats, hdata]
    simp [process_track, hannot, hskip]
  · intro hcond
    simp [process_track, hcond]

/-- C4 witness: the test environment's annotation has no beats, so with
`annot_beats` on the item is skipped, and with it off the body runs. -/
theorem C4_annot_beats_skip_rule_witness :
    (cfgT.annot_beats = true ∧
      ((test_env.load_jam "j1").beats = [] ∨
        ∃ bt rest, (test_env.load_jam "j1").beats = bt :: rest ∧
          bt.data = []) ∧
      process_track test_env "in" "a1.mp3" "j1" "*" (some "gt") none cfgT 0 =
        .ok (.skipped, 0)) ∧
    ((cfgF.annot_beats && track_skip (test_env.load_jam "j1")) = false ∧
      process_track test_env "in" "a1.mp3" "j1" "*" (some "gt") none cfgF 0 =
        process_track_body test_env "in" "a1.mp3" (some "gt") none cfgF 0) :=
  ⟨⟨rfl, Or.inl rfl,
     (C4_annot_beats_skip_rule test_env "in" "a1.mp3" "j1" "*" (some "gt")
       none cfgT 0).1 rfl (Or.inl rfl)⟩,
   ⟨rfl,
     (C4_annot_beats_skip_rule test_env "in" "a1.mp3" "j1" "*" (some "gt")
       none cfgF 0).2 rfl⟩⟩

/-- C5 counterexample: with the boundary handle absent (`"gt"`) and the
label handle absent (`None`), the executor returns the reference reader's
labels, which are `["verse"]` in the test environment — not the empty
label sequence the claim promises. -/
theorem C5_gt_labels_not_empty_cex :
    run_algorithms test_env "a.mp3" (some "gt") none cfgF 0 =
      .ok (([0, 7], ["verse"]), [], 0) ∧
    (["verse"] : List String) ≠ ([] : List String) :=
  ⟨rfl, by decide⟩

/-- C5 amended: when the boundary handle is absent the executor takes both
boundaries and labels verbatim from the reference reader; with the label
handle also absent the returned labels equal the reader's labels (they are
empty exactly when the reader's labels are), rather than defaulting to
empty. -/
theorem C5_gt_boundaries_and_labels_from_reference :
    ∀ (env : Env) (audio : String) (config : Config) (rng : Nat),
    run_algorithms env audio (some "gt") none config rng =
      .ok (env.read_references audio, [], rng) :=
  fun _ _ _ _ => rfl

/-- C6: with the boundary identifier equal to the sentinel `"gt"`, every
instantiation the executor performs is the label module constructed with
`in_bound_times` equal to the reference reader's boundary output (so no
boundary algorithm instance is ever constructed), and when the label handle
is also absent the executor's value is the reference reader's output
verbatim with an empty instantiation trace. -/
theorem C6_gt_never_instantiates_boundary_module :
    ∀ (env : Env) (audio : String) (labels_id : Option String)
      (config : Config) (rng : Nat)
      (out : (List Int × List String) × List Instantiation × Nat),
    run_algorithms env audio (some "gt") labels_id config rng = .ok out →
    (∀ inst ∈ out.2.1, ∃ lm,
        get_labels_module env.registry labels_id = .ok (some lm) ∧
        inst = ⟨lm.name,
          SegInput.withBoundTimes (env.read_references audio).1⟩) ∧
    (get_labels_module env.registry labels_id = .ok none →
        out.1 = env.read_references audio ∧ out.2.1 = []) := by
  intro env audio labels_id config rng out h
  obtain ⟨b, l, h1, h2, hd⟩ := run_algorithms_ok_elim h
  have hb : b = none := by
    rw [show get_boundaries_module env.registry (some "gt") = .ok none from
      rfl] at h1
    injection h1 with h1
    exact h1.symm
  subst hb
  cases l with
  | none =>
    subst hd
    refine ⟨?_, fun _ => ⟨rfl, rfl⟩⟩
    intro inst hinst
    exact absurd hinst (by simp [dispatch, run_independent,
      independent_bound_stage])
  | some lm =>
    subst hd
    constructor
    · intro inst hinst
      refine ⟨lm, h2, ?_⟩
      simpa [dispatch, run_independent, independent_bound_stage]
        using hinst
    · intro hcontra
      rw [h2] at hcontra
      exact absurd hcontra (by simp)

/-- C6 witness: a concrete run with the `"gt"` sentinel and the label
algorithm `"lb"`. -/
theorem C6_gt_never_instantiates_boundary_module_witness :
    (run_algorithms test_env "a.mp3" (some "gt") (some "lb") cfgF 0 =
      .ok (([0, 5, 10], ["A", "B"]),
        [⟨"lb", SegInput.withBoundTimes [0, 7]⟩], 0)) ∧
    ((∀ inst ∈ ((([0, 5, 10], ["A", "B"]),
          [(⟨"lb", SegInput.withBoundTimes [0, 7]⟩ : Instantiation)],
          0) : (List Int × List String) × List Instantiation × Nat).2.1,
        ∃ lm, get_labels_module test_env.registry (some "lb") = .ok (some lm) ∧
          inst = ⟨lm.name,
            SegInput.withBoundTimes (test_env.read_references "a.mp3").1⟩) ∧
      (get_labels_module test_env.registry (some "lb") = .ok none →
        ((([0, 5, 10], ["A", "B"]),
          [(⟨"lb", SegInput.withBoundTimes [0, 7]⟩ : Instantiation)],
          0) : (List Int × List String) × List Instantiation × Nat).1 =
            test_env.read_references "a.mp3" ∧
        ((([0, 5, 10], ["A", "B"]),
          [(⟨"lb", SegInput.withBoundTimes [0, 7]⟩ : Instantiation)],
          0) : (List Int × List String) × List Instantiation × Nat).2.1 = [])) :=
  ⟨rfl, C6_gt_never_instantiates_boundary_module test_env "a.mp3" (some "lb")
    cfgF 0 _ rfl⟩

/-- C7: the batch scheduler overwrites the ambient RNG state with the fixed
seed 123 before resolving configuration, enumerating the dataset or
dispatching any task, so the batch outcome — every non-skipped item's
written path, intervals and labels — is identical across two runs with
identical inputs and worker count, whatever the ambient RNG state of each
run. -/
theorem C7_seed_fixed_before_dispatch_determinism :
    ∀ (env : Env) (in_path : String) (annot_beats : Bool)
      (feature ds_name : String) (framesync : Bool)
      (boundaries_id labels_id : Option String) (n_jobs : Nat)
      (config0 : Option Config) (rng1 rng2 : Nat),
    process env in_path annot_beats feature ds_name framesync boundaries_id
        labels_id n_jobs config0 rng1 =
      process env in_path annot_beats feature ds_name framesync boundaries_id
        labels_id n_jobs config0 rng2 :=
  fun _ _ _ _ _ _ _ _ _ _ _ _ => rfl

/-- The per-item loop never consults the discovery collaborator, so
replacing `get_dataset_files` leaves every task outcome unchanged. -/
theorem process_items_ignores_discovery (env : Env)
    (g : String → String → List String × List String × List String)
    (in_path ds_name : String) (boundaries_id labels_id : Option String)
    (config : Config) :
    ∀ (items : List (String × String)) (rng : Nat),
    process_items { env with get_dataset_files := g } in_path ds_name
        boundaries_id labels_id config items rng =
      process_items env in_path ds_name boundaries_id labels_id config items
        rng := by
  intro items
  induction items with
  | nil => intro rng; rfl
  | cons hd rest ih =>
    intro rng
    obtain ⟨audio_file, jam_file⟩ := hd
    unfold process_items
    have hpt : process_track { env with get_dataset_files := g } in_path
        audio_file jam_file ds_name boundaries_id labels_id config rng =
        process_track env in_path audio_file jam_file ds_name boundaries_id
          labels_id config rng := rfl
    rw [hpt]
    cases hp : process_track env in_path audio_file jam_file ds_name
        boundaries_id labels_id config rng with
    | error e => rfl
    | ok r =>
      dsimp only
      rw [ih r.2]

/-- C8: the batch outcome is unchanged when the `est_files` component of
the discovery triples is replaced (the scheduler discards the output
destinations); a non-skipped task writes to the path it recomputes itself
as `in_path`, the estimations directory, and the audio base name minus its
last four characters plus the estimations extension; and stripping four
characters removes exactly a dot plus an extension iff that extension has
exactly three characters. -/
theorem C8_out_path_recomputed :
    (∀ (env : Env) (in_path : String) (annot_beats : Bool)
       (feature ds_name : String) (framesync : Bool)
       (boundaries_id labels_id : Option String) (n_jobs : Nat)
       (config0 : Option Config) (rng0 : Nat)
       (jams ests ests' audios : List String),
      process
          { env with get_dataset_files := fun _ _ => (jams, ests, audios) }
          in_path annot_beats feature ds_name framesync boundaries_id
          labels_id n_jobs config0 rng0 =
        process
          { env with get_dataset_files := fun _ _ => (jams, ests', audios) }
          in_path annot_beats feature ds_name framesync boundaries_id
          labels_id n_jobs config0 rng0) ∧
    (∀ (env : Env) (in_path audio_file jam_file ds_name : String)
       (boundaries_id labels_id : Option String) (config : Config)
       (rng : Nat) (f : String) (inters : List (Int × Int))
       (labels : List String) (b l : Option String) (c : Config)
       (rng' : Nat),
      process_track env in_path audio_file jam_file ds_name boundaries_id
          labels_id config rng = .ok (.written f inters labels b l c, rng') →
      f = path_join (path_join in_path env.estimations_dir)
            (py_drop_last (basename audio_file) 4 ++ env.estimations_ext)) ∧
    (∀ stem ext : String, stem ≠ "" →
      (py_drop_last (stem ++ "." ++ ext) 4 = stem ↔ ext.length = 3)) := by
  refine ⟨?_, ?_, ?_⟩
  · intro env in_path annot_beats feature ds_name framesync boundaries_id
      labels_id n_jobs config0 rng0 jams ests ests' audios
    unfold process
    dsimp only
    exact (process_items_ignores_discovery env
        (fun _ _ => (jams, ests, audios)) in_path ds_name boundaries_id
        labels_id _ _ 123).trans
      (process_items_ignores_discovery env
        (fun _ _ => (jams, ests', audios)) in_path ds_name boundaries_id
        labels_id _ _ 123).symm
  · intro env in_path audio_file jam_file ds_name boundaries_id labels_id
      config rng f inters labels b l c rng' h
    unfold process_track at h
    split at h
    · exact absurd h (by simp)
    · unfold process_track_body at h
      split at h
      · exact absurd h (by simp)
      · simp only [Except.ok.injEq, Prod.mk.injEq, TrackResult.written.injEq]
          at h
        exact h.1.1.symm
  · intro stem ext hne
    obtain ⟨sd⟩ := stem
    obtain ⟨ed⟩ := ext
    have hsd : sd ≠ [] := by
      intro h
      exact hne (by rw [h])
    have hsd' : 0 < sd.length := List.length_pos.mpr hsd
    have hd : (String.mk sd ++ "." ++ String.mk ed).data = sd ++ '.' :: ed :=
      by simp
    constructor
    · intro h
      unfold py_drop_last at h
      rw [hd] at h
      injection h with h
      have hlen := congrArg List.length h
      rw [List.length_take, List.length_append, List.length_cons] at hlen
      show ed.length = 3
      omega
    · intro h
      have hE : ed.length = 3 := h
      unfold py_drop_last
      rw [hd]
      have hn : (sd ++ '.' :: ed).length - 4 = sd.length := by
        rw [List.length_append, List.length_cons]
        omega
      rw [hn]
      exact congrArg String.mk (List.take_left sd ('.' :: ed))

/-- C8 witness: the concrete task run writes to
`in/estimations/a1.jams`, which matches the recomputed path, and the
three-character extension `mp3` is exactly what four-character stripping
undoes. -/
theorem C8_out_path_recomputed_witness :
    (process_track test_env "in" "a1.mp3" "j1" "*" (some "gt") none cfgF 0 =
      .ok (.written "in/estimations/a1.jams" [(0, 7)] ["verse"] (some "gt")
        none cfgF, 0) ∧
     ("in/estimations/a1.jams" : String) =
       path_join (path_join "in" test_env.estimations_dir)
         (py_drop_last (basename "a1.mp3") 4 ++ test_env.estimations_ext)) ∧
    (("a1" : String) ≠ "" ∧
     (py_drop_last ("a1" ++ "." ++ "mp3") 4 = "a1" ↔
       ("mp3" : String).length = 3)) :=
  ⟨⟨rfl,
    C8_out_path_recomputed.2.1 test_env "in" "a1.mp3" "j1" "*" (some "gt")
      none cfgF 0 _ _ _ _ _ _ _ rfl⟩,
   ⟨by decide, C8_out_path_recomputed.2.2 "a1" "mp3" (by decide)⟩⟩

/-- C9: whenever the beat list of a loaded annotation is non-empty, the
index-0 access in the skip check is in bounds: `get? 0` returns the head
beat track, and both `first_beat_data_empty` and the full `track_skip`
check reduce to testing that head track's `data` for emptiness. -/
theorem C9_skip_check_first_beat_inbounds :
    ∀ (jam : Jam), jam.beats ≠ [] →
    ∃ bt, jam.beats.get? 0 = some bt ∧
      first_beat_data_empty jam.beats = bt.data.isEmpty ∧
      track_skip jam = bt.data.isEmpty := by
  intro jam hne
  obtain ⟨beats⟩ := jam
  cases beats with
  | nil => exact absurd rfl hne
  | cons bt rest => exact ⟨bt, rfl, rfl, rfl⟩

/-- C9 witness: a concrete annotation with one beat track. -/
theorem C9_skip_check_first_beat_inbounds_witness :
    (Jam.mk [⟨[1]⟩]).beats ≠ [] ∧
    ∃ bt, (Jam.mk [⟨[1]⟩]).beats.get? 0 = some bt ∧
      first_beat_data_empty (Jam.mk [⟨[1]⟩]).beats = bt.data.isEmpty ∧
      track_skip (Jam.mk [⟨[1]⟩]) = bt.data.isEmpty :=
  ⟨by decide, C9_skip_check_first_beat_inbounds ⟨[⟨[1]⟩]⟩ (by decide)⟩

/-- C10: the two sentinels are asymmetric: boundary resolution treats
exactly the string `"gt"` as absent while label resolution treats exactly
`None` as absent; the string `"gt"` as a label identifier goes through the
registry lookup (failing with `unknownAlgorithm` when no algorithm is
registered under `"gt"`, and resolving the registered module otherwise),
and `None` as a boundary identifier fails in the lookup expression instead
of returning absent. -/
theorem C10_sentinel_asymmetry :
    (∀ registry : String → Option Module,
      get_boundaries_module registry (some "gt") = .ok none) ∧
    (∀ registry : String → Option Module,
      get_labels_module registry none = .ok none) ∧
    (∀ registry : String → Option Module, registry "gt" = none →
      get_labels_module registry (some "gt") =
        .error (.unknownAlgorithm "gt")) ∧
    (∀ (registry : String → Option Module) (m : Module),
      registry "gt" = some m →
      get_labels_module registry (some "gt") =
        if m.is_label_type then .ok (some m)
        else .error (.cannotLabel "gt")) ∧
    (∀ registry : String → Option Module,
      get_boundaries_module registry none = .error .noneConcatTypeError) := by
  refine ⟨fun _ => rfl, fun _ => rfl, ?_, ?_, fun _ => rfl⟩
  · intro registry h
    simp [get_labels_module, lookup_algorithm, h]
  · intro registry m h
    simp [get_labels_module, lookup_algorithm, h]

/-- C10 witness: the lookup-dependent parts of the sentinel-asymmetry
theorem applied to the two concrete registries. -/
theorem C10_sentinel_asymmetry_witness :
    (test_registry "gt" = none ∧
      get_labels_module test_registry (some "gt") =
        .error (.unknownAlgorithm "gt")) ∧
    (gt_registry "gt" = some lb_module ∧
      get_labels_module gt_registry (some "gt") =
        if lb_module.is_label_type then .ok (some lb_module)
        else .error (.cannotLabel "gt")) :=
  ⟨⟨rfl, C10_sentinel_asymmetry.2.2.1 test_registry rfl⟩,
   ⟨rfl, C10_sentinel_asymmetry.2.2.2.1 gt_registry lb_module rfl⟩⟩

end Msaf
